import Mathlib

set_option maxRecDepth 16384

/-!
Verification of the Truvixx scene-import and FFI-boundary layer
(`truvixx-assimp` + `truvixx-interface`).

This file shallowly embeds the C++ sources:
  * `truvixx-assimp/src/scene_importer.cpp` (SceneImporter: load / clear /
    process_nodes / process_node / process_mesh / process_material)
  * `truvixx-assimp/include/TruvixxAssimp/scene_data.hpp` (MeshData,
    MaterialData, InstanceData, SceneData)
  * `truvixx-interface/src/truvixx_api.cpp` (the C FFI accessors)

Modelling conventions:
  * C++ `float` values are modelled as `Rat` (exact, decidable); the claims
    verified here are about data movement and shapes, not float rounding.
  * Raw pointers that may be null are modelled as `Option`.
  * Caller-supplied output buffers are modelled as lists passed in and
    returned: a function that "does not write" returns the buffer unchanged;
    `memcpy` into a buffer overwrites its prefix.
  * The filesystem and the Assimp `ReadFile` call are modelled by an
    environment record `Env` (they are external collaborators of this layer).
-/

/-- One scalar of the imported data (C++ `float`). -/
abbrev F := Rat

/-- Assimp `aiMatrix4x4`: 16 scalars in row-major order; `a1..a4` is row 1,
`b1..b4` row 2, `c1..c4` row 3, `d1..d4` row 4. -/
structure Mat4 where
  a1 : F
  a2 : F
  a3 : F
  a4 : F
  b1 : F
  b2 : F
  b3 : F
  b4 : F
  c1 : F
  c2 : F
  c3 : F
  c4 : F
  d1 : F
  d2 : F
  d3 : F
  d4 : F
deriving DecidableEq

/-- `aiMatrix4x4()` default constructor: the identity matrix. -/
def Mat4.identity : Mat4 :=
  ⟨1, 0, 0, 0,
   0, 1, 0, 0,
   0, 0, 1, 0,
   0, 0, 0, 1⟩

/-- Assimp `aiMatrix4x4::operator*`: row-major matrix product; entry at
row `r`, column `c` of `matMul A B` is the dot product of row `r` of `A`
with column `c` of `B`. -/
def matMul (A B : Mat4) : Mat4 :=
  ⟨A.a1 * B.a1 + A.a2 * B.b1 + A.a3 * B.c1 + A.a4 * B.d1,
   A.a1 * B.a2 + A.a2 * B.b2 + A.a3 * B.c2 + A.a4 * B.d2,
   A.a1 * B.a3 + A.a2 * B.b3 + A.a3 * B.c3 + A.a4 * B.d3,
   A.a1 * B.a4 + A.a2 * B.b4 + A.a3 * B.c4 + A.a4 * B.d4,
   A.b1 * B.a1 + A.b2 * B.b1 + A.b3 * B.c1 + A.b4 * B.d1,
   A.b1 * B.a2 + A.b2 * B.b2 + A.b3 * B.c2 + A.b4 * B.d2,
   A.b1 * B.a3 + A.b2 * B.b3 + A.b3 * B.c3 + A.b4 * B.d3,
   A.b1 * B.a4 + A.b2 * B.b4 + A.b3 * B.c4 + A.b4 * B.d4,
   A.c1 * B.a1 + A.c2 * B.b1 + A.c3 * B.c1 + A.c4 * B.d1,
   A.c1 * B.a2 + A.c2 * B.b2 + A.c3 * B.c2 + A.c4 * B.d2,
   A.c1 * B.a3 + A.c2 * B.b3 + A.c3 * B.c3 + A.c4 * B.d3,
   A.c1 * B.a4 + A.c2 * B.b4 + A.c3 * B.c4 + A.c4 * B.d4,
   A.d1 * B.a1 + A.d2 * B.b1 + A.d3 * B.c1 + A.d4 * B.d1,
   A.d1 * B.a2 + A.d2 * B.b2 + A.d3 * B.c2 + A.d4 * B.d2,
   A.d1 * B.a3 + A.d2 * B.b3 + A.d3 * B.c3 + A.d4 * B.d3,
   A.d1 * B.a4 + A.d2 * B.b4 + A.d3 * B.c4 + A.d4 * B.d4⟩

/-- Row-major element access: `Mat4.get m r c` is the entry in row `r`,
column `c` (so `get m 0 0 = a1`, `get m 1 0 = b1`, `get m 0 1 = a2`). -/
def Mat4.get (m : Mat4) (r c : Fin 4) : F :=
  match r.val, c.val with
  | 0, 0 => m.a1
  | 0, 1 => m.a2
  | 0, 2 => m.a3
  | 0, 3 => m.a4
  | 1, 0 => m.b1
  | 1, 1 => m.b2
  | 1, 2 => m.b3
  | 1, 3 => m.b4
  | 2, 0 => m.c1
  | 2, 1 => m.c2
  | 2, 2 => m.c3
  | 2, 3 => m.c4
  | 3, 0 => m.d1
  | 3, 1 => m.d2
  | 3, 2 => m.d3
  | 3, 3 => m.d4
  | _, _ => 0

/-- Assimp `aiVector3D`. -/
structure AiVec3 where
  x : F
  y : F
  z : F
deriving DecidableEq

instance : Inhabited AiVec3 := ⟨⟨0, 0, 0⟩⟩

/-- Assimp `aiFace`: `mIndices` is the list of vertex indices of the face
(`mNumIndices` is its length). -/
structure AiFace where
  mIndices : List Nat
deriving DecidableEq

/-- Assimp `aiMesh` (the fields this layer reads). Attribute arrays that can
be null pointers (`mNormals`, `mTangents`, `mBitangents`,
`mTextureCoords[0]`) are `Option` lists. -/
structure AiMesh where
  mVertices : List AiVec3
  mNormals : Option (List AiVec3)
  mTangents : Option (List AiVec3)
  mBitangents : Option (List AiVec3)
  mTextureCoords0 : Option (List AiVec3)
  mFaces : List AiFace
  mMaterialIndex : Nat
deriving DecidableEq

/-- Assimp `aiMesh::HasNormals()`: `mNormals != nullptr && mNumVertices > 0`. -/
def AiMesh.HasNormals (m : AiMesh) : Bool :=
  m.mNormals.isSome && decide (0 < m.mVertices.length)

/-- Assimp `aiMesh::HasTangentsAndBitangents()`:
`mTangents != nullptr && mBitangents != nullptr && mNumVertices > 0`. -/
def AiMesh.HasTangentsAndBitangents (m : AiMesh) : Bool :=
  m.mTangents.isSome && m.mBitangents.isSome && decide (0 < m.mVertices.length)

/-- Assimp `aiMesh::HasTextureCoords(0)`:
`mTextureCoords[0] != nullptr && mNumVertices > 0`. -/
def AiMesh.HasTextureCoords0 (m : AiMesh) : Bool :=
  m.mTextureCoords0.isSome && decide (0 < m.mVertices.length)

/-- Assimp `aiNode` (the fields this layer reads); child pointers of a real
scene tree are non-null, so children are plain nodes. -/
inductive AiNode where
  | mk (mName : String) (mTransformation : Mat4) (mMeshes : List Nat)
       (mChildren : List AiNode)

/-- The node's name. -/
def AiNode.mName : AiNode → String
  | .mk n _ _ _ => n

/-- The node's local transform. -/
def AiNode.mTransformation : AiNode → Mat4
  | .mk _ t _ _ => t

/-- The node's mesh slots (indices into the scene's global mesh list). -/
def AiNode.mMeshes : AiNode → List Nat
  | .mk _ _ m _ => m

/-- The node's children. -/
def AiNode.mChildren : AiNode → List AiNode
  | .mk _ _ _ c => c

mutual

/-- Total number of nodes in the tree rooted at this node. -/
def AiNode.totalNodes : AiNode → Nat
  | .mk _ _ _ children => 1 + AiNode.totalNodesList children

/-- Total number of nodes in a forest. -/
def AiNode.totalNodesList : List AiNode → Nat
  | [] => 0
  | n :: ns => AiNode.totalNodes n + AiNode.totalNodesList ns

end

/-- Assimp `aiMaterial` (the keys this layer queries; `none` models a key
whose `Get` returns a failure code) together with its texture stacks. -/
structure AiMaterial where
  name : Option String
  diffuse_color : Option (List F)
  roughness_factor : Option F
  reflectivity : Option F
  emissive_color : Option (List F)
  opacity : Option F
  diffuse_textures : List String
  normal_textures : List String
deriving DecidableEq

/-- Assimp `aiScene` (the fields this layer reads); entries of the material
and mesh arrays are pointers, hence `Option`. -/
structure AiScene where
  mFlagsIncomplete : Bool
  mRootNode : Option AiNode
  mMaterials : List (Option AiMaterial)
  mMeshes : List (Option AiMesh)

/-- `truvixx::MeshData` (scene_data.hpp): SOA attribute arrays. -/
structure MeshData where
  positions : List F := []
  normals : List F := []
  tangents : List F := []
  bitangents : List F := []
  uvs : List F := []
  indices : List Nat := []
deriving DecidableEq

/-- `MeshData::vertex_count()`: `positions.size() / 3`. -/
def MeshData.vertex_count (m : MeshData) : Nat := m.positions.length / 3

/-- `MeshData::index_count()`: `indices.size()`. -/
def MeshData.index_count (m : MeshData) : Nat := m.indices.length

/-- `truvixx::MaterialData` with its in-class default member values. -/
structure MaterialData where
  name : String := ""
  base_color : List F := [1, 1, 1, 1]
  roughness : F := 1 / 2
  metallic : F := 0
  emissive : List F := [0, 0, 0, 1]
  opacity : F := 1
  diffuse_map : String := ""
  normal_map : String := ""
deriving DecidableEq

/-- `truvixx::InstanceData`; `world_transform` is the 16-element column-major
array (`m[0..3]` is column 0). -/
structure InstanceData where
  name : String := ""
  world_transform : List F :=
    [1, 0, 0, 0,
     0, 1, 0, 0,
     0, 0, 1, 0,
     0, 0, 0, 1]
  mesh_indices : List Nat := []
  material_indices : List Nat := []

/-- `truvixx::SceneData`. -/
structure SceneData where
  meshes : List MeshData := []
  materials : List MaterialData := []
  instances : List InstanceData := []

/-- The body of the per-vertex loops that write `src[i].x/.y/.z` into slots
`i*3 .. i*3+2` of a float array resized to `n*3`: element order is
`[x0, y0, z0, x1, y1, z1, ...]` for `i < n`. -/
def fill3 (src : List AiVec3) : Nat → List F
  | 0 => []
  | n + 1 =>
      fill3 src n ++ [(src.getD n default).x, (src.getD n default).y, (src.getD n default).z]

/-- The per-vertex UV loop writing `src[i].x/.y` into slots `i*2, i*2+1` of a
float array resized to `n*2`. -/
def fill2 (src : List AiVec3) : Nat → List F
  | 0 => []
  | n + 1 =>
      fill2 src n ++ [(src.getD n default).x, (src.getD n default).y]

/-- `SceneImporter::process_mesh` (scene_importer.cpp). The argument is the
`aiMesh*` (null guarded: a null mesh leaves the freshly emplaced `MeshData`
at its defaults). `uvs` is resized to `vertex_count*2` zero-filled and then
overwritten pair-by-pair only when the first UV channel exists. Faces
contribute indices only when they have exactly 3 of them. -/
def process_mesh : Option AiMesh → MeshData
  | none => {}
  | some mesh =>
      let vc := mesh.mVertices.length
      { positions := fill3 mesh.mVertices vc
        normals := if mesh.HasNormals then fill3 (mesh.mNormals.getD []) vc else []
        tangents :=
          if mesh.HasTangentsAndBitangents then fill3 (mesh.mTangents.getD []) vc else []
        bitangents :=
          if mesh.HasTangentsAndBitangents then fill3 (mesh.mBitangents.getD []) vc else []
        uvs :=
          if mesh.HasTextureCoords0 then fill2 (mesh.mTextureCoords0.getD []) vc
          else List.replicate (vc * 2) (0 : F)
        indices :=
          mesh.mFaces.foldl
            (fun acc face => if face.mIndices.length = 3 then acc ++ face.mIndices else acc)
            [] }

/-- `SceneImporter::process_material` (scene_importer.cpp): each key that
`Get` fails to fetch leaves the corresponding `MaterialData` default; texture
paths are resolved against the scene file's directory. -/
def process_material (dir : String) : Option AiMaterial → MaterialData
  | none => {}
  | some material =>
      let get_texture_path : List String → String := fun textures =>
        match textures with
        | [] => ""
        | tex_path :: _ => dir ++ "/" ++ tex_path
      { name := (material.name).getD ""
        base_color := (material.diffuse_color).getD [1, 1, 1, 1]
        roughness := (material.roughness_factor).getD (1 / 2)
        metallic := (material.reflectivity).getD 0
        emissive := (material.emissive_color).getD [0, 0, 0, 1]
        opacity := (material.opacity).getD 1
        diffuse_map := get_texture_path material.diffuse_textures
        normal_map := get_texture_path material.normal_textures }

/-- Material index lookup `ai_scene_->mMeshes[mesh_idx]->mMaterialIndex`
performed by `process_node` for each mesh slot. -/
def material_index_of (meshes : List (Option AiMesh)) (mesh_idx : Nat) : Nat :=
  match meshes.getD mesh_idx none with
  | some m => m.mMaterialIndex
  | none => 0

/-- `SceneImporter::process_node` (scene_importer.cpp): builds the
`InstanceData` for one node, storing `parent_transform * node->mTransformation`
transposed into column-major order (row-major source row `r`, column `c`
becomes destination slot `c*4+r`). -/
def process_node (meshes : List (Option AiMesh)) (node : AiNode) (parent_transform : Mat4) :
    InstanceData :=
  let world := matMul parent_transform node.mTransformation
  { name := node.mName
    world_transform :=
      [world.a1, world.b1, world.c1, world.d1,
       world.a2, world.b2, world.c2, world.d2,
       world.a3, world.b3, world.c3, world.d3,
       world.a4, world.b4, world.c4, world.d4]
    mesh_indices := node.mMeshes
    material_indices := node.mMeshes.map (material_index_of meshes) }

/-- Termination measure for the BFS queue: total node count held in the
queue. -/
def queueWeight (q : List (AiNode × Mat4)) : Nat :=
  (q.map (fun p => p.1.totalNodes)).sum

/-- The BFS loop of `SceneImporter::process_nodes`: pop `(node,
parent_transform)` from the front, record the node's instance, enqueue its
children with the freshly accumulated transform
`parent_transform * node->mTransformation`. -/
def process_nodes_go (meshes : List (Option AiMesh)) :
    List (AiNode × Mat4) → List InstanceData → List InstanceData
  | [], acc => acc
  | (node, parent_transform) :: rest, acc =>
      process_nodes_go meshes
        (rest ++
          node.mChildren.map (fun c => (c, matMul parent_transform node.mTransformation)))
        (acc ++ [process_node meshes node parent_transform])
termination_by q _ => queueWeight q
decreasing_by
  have happ : ∀ q r : List (AiNode × Mat4), queueWeight (q ++ r) = queueWeight q + queueWeight r := by
    intro q r
    simp [queueWeight]
  have key : ∀ (cs : List AiNode) (T : Mat4),
      queueWeight (cs.map fun c => (c, T)) = AiNode.totalNodesList cs := by
    intro cs T
    induction cs with
    | nil => rfl
    | cons c cs ih =>
        simp [queueWeight, AiNode.totalNodesList] at ih ⊢
        omega
  have hcons : ∀ (n : AiNode) (t : Mat4) (q : List (AiNode × Mat4)),
      queueWeight ((n, t) :: q) = n.totalNodes + queueWeight q := by
    intro n t q
    simp [queueWeight]
  have hn : ∀ n : AiNode, AiNode.totalNodes n = 1 + AiNode.totalNodesList n.mChildren := by
    intro n
    cases n
    rfl
  rw [happ, key, hcons, hn]
  omega

/-- `SceneImporter::process_nodes`: null root is a no-op; otherwise BFS from
the root, whose parent transform is the identity (`aiMatrix4x4()`). -/
def process_nodes (meshes : List (Option AiMesh)) : Option AiNode → List InstanceData
  | none => []
  | some root_node => process_nodes_go meshes [(root_node, Mat4.identity)] []

/-- The breadth-first discovery order of the nodes of a forest, as the spec
describes it: pop the front node, list it, enqueue its children. -/
def bfsNodes : List AiNode → List AiNode
  | [] => []
  | node :: rest => node :: bfsNodes (rest ++ node.mChildren)
termination_by q => (q.map AiNode.totalNodes).sum
decreasing_by
  have hs : ∀ ns : List AiNode, AiNode.totalNodesList ns = (ns.map AiNode.totalNodes).sum := by
    intro ns
    induction ns with
    | nil => rfl
    | cons n ns ih => simp [AiNode.totalNodesList, ih]
  have hn : ∀ n : AiNode, AiNode.totalNodes n = 1 + AiNode.totalNodesList n.mChildren := by
    intro n
    cases n
    rfl
  simp only [List.map_append, List.sum_append, List.map_cons, List.sum_cons]
  rw [hn, hs]
  omega

/-- The `(node, parent_transform)` pairs visited by the BFS loop, in visit
order. -/
def bfsPairs : List (AiNode × Mat4) → List (AiNode × Mat4)
  | [] => []
  | (node, parent_transform) :: rest =>
      (node, parent_transform) ::
        bfsPairs
          (rest ++
            node.mChildren.map (fun c => (c, matMul parent_transform node.mTransformation)))
termination_by q => queueWeight q
decreasing_by
  have happ : ∀ q r : List (AiNode × Mat4), queueWeight (q ++ r) = queueWeight q + queueWeight r := by
    intro q r
    simp [queueWeight]
  have key : ∀ (cs : List AiNode) (T : Mat4),
      queueWeight (cs.map fun c => (c, T)) = AiNode.totalNodesList cs := by
    intro cs T
    induction cs with
    | nil => rfl
    | cons c cs ih =>
        simp [queueWeight, AiNode.totalNodesList] at ih ⊢
        omega
  have hcons : ∀ (n : AiNode) (t : Mat4) (q : List (AiNode × Mat4)),
      queueWeight ((n, t) :: q) = n.totalNodes + queueWeight q := by
    intro n t q
    simp [queueWeight]
  have hn : ∀ n : AiNode, AiNode.totalNodes n = 1 + AiNode.totalNodesList n.mChildren := by
    intro n
    cases n
    rfl
  rw [happ, key, hcons, hn]
  omega

/-- The mutable state of a `truvixx::SceneImporter` object
(scene_importer.hpp, private section; the `Assimp::Importer` resource itself
carries no state this layer reads back). -/
structure SceneImporterState where
  scene_data : SceneData := {}
  ai_scene : Option AiScene := none
  dir : String := ""
  error_msg : String := ""
  is_loaded : Bool := false

/-- A freshly constructed `SceneImporter`. -/
def SceneImporterState.init : SceneImporterState := {}

/-- `SceneImporter::clear()`: empties `scene_data_`, drops `ai_scene_`,
resets `is_loaded_` and `error_msg_`, and recreates the importer. Note that
`dir_` is NOT reset. -/
def SceneImporterState.clear (st : SceneImporterState) : SceneImporterState :=
  { st with scene_data := {}, ai_scene := none, is_loaded := false, error_msg := "" }

/-- The external collaborators of `SceneImporter::load`: the filesystem
checks and the Assimp `ReadFile` call. `read_file` returning `none` models a
null `aiScene*`; `error_string` models `Assimp::Importer::GetErrorString()`. -/
structure Env where
  exists_file : String → Bool
  is_regular_file : String → Bool
  parent_path : String → String
  read_file : String → Option AiScene
  error_string : String

/-- `SceneImporter::load` (scene_importer.cpp): clear previous state, check
the path, run `ReadFile`, reject null/incomplete/rootless scenes, then
convert materials, meshes and the node tree. Returns `(success, new state)`. -/
def SceneImporter.load (env : Env) (st0 : SceneImporterState) (path : String) :
    Bool × SceneImporterState :=
  let st := st0.clear
  if !(env.exists_file path) || !(env.is_regular_file path) then
    (false, { st with error_msg := "File not found: " ++ path })
  else
    let st := { st with dir := env.parent_path path }
    match env.read_file path with
    | none =>
        (false, { st with error_msg := "Assimp error: " ++ env.error_string })
    | some sc =>
        if sc.mFlagsIncomplete || sc.mRootNode.isNone then
          (false, { st with ai_scene := some sc,
                            error_msg := "Assimp error: " ++ env.error_string })
        else
          let st := { st with ai_scene := some sc }
          let materials := sc.mMaterials.map (process_material st.dir)
          let meshes := sc.mMeshes.map process_mesh
          let instances := process_nodes sc.mMeshes sc.mRootNode
          (true,
            { st with
                scene_data := { meshes := meshes, materials := materials,
                                instances := instances }
                is_loaded := true })

/-- The byte sequence of a `std::string` (one entry per character of the
model string). -/
def strBytes (s : String) : List Nat := s.data.map Char.toNat

/-- `safe_strcpy` (truvixx_api.cpp): into a buffer of `dest_size` bytes,
copy `copy_len = min(src.size(), dest_size - 1)` bytes of `src`, write a null
terminator at `copy_len`, and leave every later byte of the buffer as it
was. `dest` is the current contents of the destination buffer (its length is
the buffer size `dest_size`). -/
def safe_strcpy (dest : List Nat) (dest_size : Nat) (src : List Nat) : List Nat :=
  if dest_size = 0 then dest
  else
    let copy_len := min src.length (dest_size - 1)
    src.take copy_len ++ [0] ++ dest.drop (copy_len + 1)

/-- `std::memcpy(dest, src.data(), src.size() * sizeof ...)`: overwrite the
first `src.length` entries of the destination buffer. -/
def memcpyL {α : Type} (dest src : List α) : List α :=
  src ++ dest.drop src.length

/-- The handle's pointee `struct TruvixxScene_` (truvixx_api.cpp): it owns
one `SceneImporter`. -/
structure TruvixxScene_ where
  importer : SceneImporterState

/-- `TruvixxScene`: a possibly-null pointer to a `TruvixxScene_`. -/
abbrev TruvixxScene := Option TruvixxScene_

/-- `get_scene_data` (truvixx_api.cpp): null check plus `is_loaded()` check;
returns the importer's `SceneData` only for a loaded handle. -/
def get_scene_data (scene : TruvixxScene) : Option SceneData :=
  match scene with
  | none => none
  | some s => if s.importer.is_loaded then some s.importer.scene_data else none

/-- `truvixx_scene_load` (truvixx_api.cpp): a null path gives a null handle;
otherwise a fresh `TruvixxScene_` is allocated and returned whether or not
the importer's `load` succeeded (on failure the error stays recorded in the
handle). -/
def truvixx_scene_load (env : Env) (path : Option String) : TruvixxScene :=
  match path with
  | none => none
  | some p =>
      let r := SceneImporter.load env SceneImporterState.init p
      some { importer := r.2 }

/-- `truvixx_scene_error`: empty string for a null handle, else the
importer's recorded error message. -/
def truvixx_scene_error (scene : TruvixxScene) : String :=
  match scene with
  | none => ""
  | some s => s.importer.error_msg

/-- `truvixx_scene_mesh_count`: 0 for a null or unloaded handle. -/
def truvixx_scene_mesh_count (scene : TruvixxScene) : Nat :=
  match get_scene_data scene with
  | some data => data.meshes.length
  | none => 0

/-- `truvixx_scene_material_count`: 0 for a null or unloaded handle. -/
def truvixx_scene_material_count (scene : TruvixxScene) : Nat :=
  match get_scene_data scene with
  | some data => data.materials.length
  | none => 0

/-- `truvixx_scene_instance_count`: 0 for a null or unloaded handle. -/
def truvixx_scene_instance_count (scene : TruvixxScene) : Nat :=
  match get_scene_data scene with
  | some data => data.instances.length
  | none => 0

/-- The C struct `TruvixxMaterial` (truvixx_api.hpp). The `char[256]` fields
are byte buffers modelled as lists of length 256. -/
structure TruvixxMaterial where
  name : List Nat
  base_color : List F
  roughness : F
  metallic : F
  emissive : List F
  opacity : F
  diffuse_map : List Nat
  normal_map : List Nat
deriving DecidableEq

/-- The C struct `TruvixxInstance` (truvixx_api.hpp). -/
structure TruvixxInstance where
  name : List Nat
  world_transform : List F
  mesh_count : Nat
  pad0 : Nat
deriving DecidableEq

/-- The C struct `TruvixxMeshInfo` (truvixx_api.hpp). -/
structure TruvixxMeshInfo where
  vertex_count : Nat
  index_count : Nat
  has_normals : Nat
  has_tangents : Nat
  has_uvs : Nat
  pad0 : Nat
deriving DecidableEq

/-- `truvixx_material_get` (truvixx_api.cpp). The out pointer is `Option`;
the returned pair is `(status, contents of *out after the call)`: on any
failure the caller's struct is returned unchanged. -/
def truvixx_material_get (scene : TruvixxScene) (index : Nat)
    (out : Option TruvixxMaterial) : Nat × Option TruvixxMaterial :=
  match out with
  | none => (0, none)
  | some outv =>
      match get_scene_data scene with
      | none => (0, some outv)
      | some data =>
          if data.materials.length ≤ index then (0, some outv)
          else
            let mat := data.materials.getD index {}
            (1, some
              { name := safe_strcpy outv.name 256 (strBytes mat.name)
                base_color := mat.base_color
                roughness := mat.roughness
                metallic := mat.metallic
                emissive := mat.emissive
                opacity := mat.opacity
                diffuse_map := safe_strcpy outv.diffuse_map 256 (strBytes mat.diffuse_map)
                normal_map := safe_strcpy outv.normal_map 256 (strBytes mat.normal_map) })

/-- `truvixx_instance_get` (truvixx_api.cpp); same out-parameter convention
as `truvixx_material_get`. -/
def truvixx_instance_get (scene : TruvixxScene) (index : Nat)
    (out : Option TruvixxInstance) : Nat × Option TruvixxInstance :=
  match out with
  | none => (0, none)
  | some outv =>
      match get_scene_data scene with
      | none => (0, some outv)
      | some data =>
          if data.instances.length ≤ index then (0, some outv)
          else
            let inst := data.instances.getD index {}
            (1, some
              { name := safe_strcpy outv.name 256 (strBytes inst.name)
                world_transform := inst.world_transform
                mesh_count := inst.mesh_indices.length
                pad0 := 0 })

/-- `truvixx_mesh_get_info` (truvixx_api.cpp). -/
def truvixx_mesh_get_info (scene : TruvixxScene) (index : Nat)
    (out : Option TruvixxMeshInfo) : Nat × Option TruvixxMeshInfo :=
  match out with
  | none => (0, none)
  | some outv =>
      match get_scene_data scene with
      | none => (0, some outv)
      | some data =>
          if data.meshes.length ≤ index then (0, some outv)
          else
            let mesh := data.meshes.getD index {}
            (1, some
              { vertex_count := mesh.vertex_count
                index_count := mesh.index_count
                has_normals := if mesh.normals.isEmpty then 0 else 1
                has_tangents := if mesh.tangents.isEmpty then 0 else 1
                has_uvs := if mesh.uvs.isEmpty then 0 else 1
                pad0 := 0 })

/-- `truvixx_mesh_fill_positions` (truvixx_api.cpp): no emptiness check on
positions. -/
def truvixx_mesh_fill_positions (scene : TruvixxScene) (index : Nat)
    (out : Option (List F)) : Nat × Option (List F) :=
  match out with
  | none => (0, none)
  | some buf =>
      match get_scene_data scene with
      | none => (0, some buf)
      | some data =>
          if data.meshes.length ≤ index then (0, some buf)
          else (1, some (memcpyL buf (data.meshes.getD index {}).positions))

/-- `truvixx_mesh_fill_normals` (truvixx_api.cpp): fails when the mesh's
normals sequence is empty. -/
def truvixx_mesh_fill_normals (scene : TruvixxScene) (index : Nat)
    (out : Option (List F)) : Nat × Option (List F) :=
  match out with
  | none => (0, none)
  | some buf =>
      match get_scene_data scene with
      | none => (0, some buf)
      | some data =>
          if data.meshes.length ≤ index then (0, some buf)
          else
            let normals := (data.meshes.getD index {}).normals
            if normals.isEmpty then (0, some buf)
            else (1, some (memcpyL buf normals))

/-- `truvixx_mesh_fill_tangents` (truvixx_api.cpp): fails when the mesh's
tangents sequence is empty. -/
def truvixx_mesh_fill_tangents (scene : TruvixxScene) (index : Nat)
    (out : Option (List F)) : Nat × Option (List F) :=
  match out with
  | none => (0, none)
  | some buf =>
      match get_scene_data scene with
      | none => (0, some buf)
      | some data =>
          if data.meshes.length ≤ index then (0, some buf)
          else
            let tangents := (data.meshes.getD index {}).tangents
            if tangents.isEmpty then (0, some buf)
            else (1, some (memcpyL buf tangents))

/-- `truvixx_mesh_fill_uvs` (truvixx_api.cpp): fails when the mesh's uvs
sequence is empty. -/
def truvixx_mesh_fill_uvs (scene : TruvixxScene) (index : Nat)
    (out : Option (List F)) : Nat × Option (List F) :=
  match out with
  | none => (0, none)
  | some buf =>
      match get_scene_data scene with
      | none => (0, some buf)
      | some data =>
          if data.meshes.length ≤ index then (0, some buf)
          else
            let uvs := (data.meshes.getD index {}).uvs
            if uvs.isEmpty then (0, some buf)
            else (1, some (memcpyL buf uvs))

/-- `truvixx_mesh_fill_indices` (truvixx_api.cpp): no emptiness check. -/
def truvixx_mesh_fill_indices (scene : TruvixxScene) (index : Nat)
    (out : Option (List Nat)) : Nat × Option (List Nat) :=
  match out with
  | none => (0, none)
  | some buf =>
      match get_scene_data scene with
      | none => (0, some buf)
      | some data =>
          if data.meshes.length ≤ index then (0, some buf)
          else (1, some (memcpyL buf (data.meshes.getD index {}).indices))

/-- One guarded copy of `truvixx_mesh_fill_all`:
`if (ptr && !attr.empty()) memcpy(ptr, attr, ...)`. -/
def fill_opt {α : Type} (out : Option (List α)) (src : List α) : Option (List α) :=
  match out with
  | none => none
  | some buf => if !src.isEmpty then some (memcpyL buf src) else some buf

/-- `truvixx_mesh_fill_all` (truvixx_api.cpp): one validity check, then each
non-null pointer whose attribute is non-empty is filled; always returns 1
after the validity check passes. The five buffers are returned in order
(positions, normals, tangents, uvs, indices). -/
def truvixx_mesh_fill_all (scene : TruvixxScene) (index : Nat)
    (out_positions out_normals out_tangents out_uvs : Option (List F))
    (out_indices : Option (List Nat)) :
    Nat × (Option (List F) × Option (List F) × Option (List F) × Option (List F) ×
      Option (List Nat)) :=
  match get_scene_data scene with
  | none => (0, (out_positions, out_normals, out_tangents, out_uvs, out_indices))
  | some data =>
      if data.meshes.length ≤ index then
        (0, (out_positions, out_normals, out_tangents, out_uvs, out_indices))
      else
        let mesh := data.meshes.getD index {}
        (1, (fill_opt out_positions mesh.positions,
             fill_opt out_normals mesh.normals,
             fill_opt out_tangents mesh.tangents,
             fill_opt out_uvs mesh.uvs,
             fill_opt out_indices mesh.indices))

/-- A concrete source mesh: one vertex, normals present, no tangents and no
first UV channel, one triangle face (as a degenerate index triple) and one
residual 2-index face. -/
def exMesh1 : AiMesh :=
  { mVertices := [⟨1, 2, 3⟩]
    mNormals := some [⟨4, 5, 6⟩]
    mTangents := none
    mBitangents := none
    mTextureCoords0 := none
    mFaces := [⟨[0, 0, 0]⟩, ⟨[0, 0]⟩]
    mMaterialIndex := 0 }

/-- A concrete source mesh with no vertices at all: every converted
attribute sequence comes out empty. -/
def exMesh2 : AiMesh :=
  { mVertices := []
    mNormals := none
    mTangents := none
    mBitangents := none
    mTextureCoords0 := none
    mFaces := []
    mMaterialIndex := 0 }

/-- A concrete source material. -/
def exMaterial : AiMaterial :=
  { name := some "mat"
    diffuse_color := none
    roughness_factor := none
    reflectivity := none
    emissive_color := none
    opacity := none
    diffuse_textures := []
    normal_textures := [] }

/-- A concrete complete source scene: a root node referencing mesh 0, one
material, two meshes. -/
def exScene : AiScene :=
  { mFlagsIncomplete := false
    mRootNode := some (.mk "root" Mat4.identity [0] [])
    mMaterials := [some exMaterial]
    mMeshes := [some exMesh1, some exMesh2] }

/-- An environment in which every path exists and `ReadFile` yields
`exScene`. -/
def exEnv : Env :=
  { exists_file := fun _ => true
    is_regular_file := fun _ => true
    parent_path := fun _ => "dir"
    read_file := fun _ => some exScene
    error_string := "" }

/-- An environment in which no path exists: every load fails at the
filesystem check. -/
def exEnvMissing : Env :=
  { exists_file := fun _ => false
    is_regular_file := fun _ => false
    parent_path := fun _ => ""
    read_file := fun _ => none
    error_string := "boom" }

/-- A successfully loaded handle over `exScene`. -/
def exHandle : TruvixxScene := truvixx_scene_load exEnv (some "scene.gltf")

/-- A caller's `TruvixxMaterial` output struct filled with garbage. -/
def exMat0 : TruvixxMaterial :=
  { name := List.replicate 256 7
    base_color := [9, 9, 9, 9]
    roughness := 9
    metallic := 9
    emissive := [9, 9, 9, 9]
    opacity := 9
    diffuse_map := List.replicate 256 7
    normal_map := List.replicate 256 7 }

/-- A caller's `TruvixxInstance` output struct filled with garbage. -/
def exInst0 : TruvixxInstance :=
  { name := List.replicate 256 7
    world_transform := List.replicate 16 9
    mesh_count := 9
    pad0 := 9 }

/-- A caller's `TruvixxMeshInfo` output struct filled with garbage. -/
def exInfo0 : TruvixxMeshInfo := ⟨7, 7, 7, 7, 7, 7⟩

/-- The `SceneData` held by `exHandle`. -/
def exData : SceneData :=
  (SceneImporter.load exEnv SceneImporterState.init "scene.gltf").2.scene_data

/-!  Helper lemmas (shared; none of these is a claim theorem). -/

theorem bfsNodes_nil : bfsNodes [] = [] := by
  rw [bfsNodes.eq_def]

theorem bfsNodes_cons (n : AiNode) (ns : List AiNode) :
    bfsNodes (n :: ns) = n :: bfsNodes (ns ++ n.mChildren) := by
  rw [bfsNodes.eq_def]

theorem bfsPairs_nil : bfsPairs [] = [] := by
  rw [bfsPairs.eq_def]

theorem bfsPairs_cons (n : AiNode) (t : Mat4) (rest : List (AiNode × Mat4)) :
    bfsPairs ((n, t) :: rest) =
      (n, t) :: bfsPairs (rest ++ n.mChildren.map (fun c => (c, matMul t n.mTransformation))) := by
  rw [bfsPairs.eq_def]

theorem process_nodes_go_nil (meshes : List (Option AiMesh)) (acc : List InstanceData) :
    process_nodes_go meshes [] acc = acc := by
  rw [process_nodes_go.eq_def]

theorem process_nodes_go_cons (meshes : List (Option AiMesh)) (n : AiNode) (t : Mat4)
    (rest : List (AiNode × Mat4)) (acc : List InstanceData) :
    process_nodes_go meshes ((n, t) :: rest) acc =
      process_nodes_go meshes
        (rest ++ n.mChildren.map (fun c => (c, matMul t n.mTransformation)))
        (acc ++ [process_node meshes n t]) := by
  rw [process_nodes_go.eq_def]

theorem process_nodes_go_eq (meshes : List (Option AiMesh)) :
    ∀ (q : List (AiNode × Mat4)) (acc : List InstanceData),
      process_nodes_go meshes q acc =
        acc ++ (bfsPairs q).map (fun p => process_node meshes p.1 p.2) := by
  intro q acc
  induction q, acc using process_nodes_go.induct meshes with
  | case1 acc => simp [process_nodes_go_nil, bfsPairs_nil]
  | case2 node parent_transform rest acc ih =>
      rw [process_nodes_go_cons, ih, bfsPairs_cons]
      simp

theorem bfsPairs_fst :
    ∀ q : List (AiNode × Mat4), (bfsPairs q).map Prod.fst = bfsNodes (q.map Prod.fst) := by
  intro q
  induction q using bfsPairs.induct with
  | case1 => simp [bfsPairs_nil, bfsNodes_nil]
  | case2 node parent_transform rest ih =>
      rw [bfsPairs_cons]
      simp only [List.map_cons, List.map_append, List.map_map] at ih ⊢
      rw [ih, bfsNodes_cons]
      simp [Function.comp_def]

theorem bfsNodes_length :
    ∀ q : List AiNode, (bfsNodes q).length = (q.map AiNode.totalNodes).sum := by
  intro q
  induction q using bfsNodes.induct with
  | case1 => simp [bfsNodes_nil]
  | case2 node rest ih =>
      rw [bfsNodes_cons]
      simp only [List.length_cons, ih, List.map_append, List.sum_append, List.map_cons,
        List.sum_cons]
      have hn : node.totalNodes = 1 + AiNode.totalNodesList node.mChildren := by
        cases node
        rfl
      have hs : ∀ ns : List AiNode, AiNode.totalNodesList ns = (ns.map AiNode.totalNodes).sum := by
        intro ns
        induction ns with
        | nil => rfl
        | cons n ns ihs => simp [AiNode.totalNodesList, ihs]
      rw [hn, hs]
      omega

theorem matMul_identity_left (M : Mat4) : matMul Mat4.identity M = M := by
  cases M
  simp [matMul, Mat4.identity]

theorem load_fail (env : Env) (st : SceneImporterState) (p : String)
    (h : (SceneImporter.load env st p).1 = false) :
    (SceneImporter.load env st p).2.scene_data.meshes = []
    ∧ (SceneImporter.load env st p).2.scene_data.materials = []
    ∧ (SceneImporter.load env st p).2.scene_data.instances = []
    ∧ (SceneImporter.load env st p).2.is_loaded = false
    ∧ (SceneImporter.load env st p).2.error_msg ≠ "" := by
  have d1 : ("File not found: " ++ p) ≠ "" := by
    intro hemp
    have hl := congrArg String.length hemp
    simp [String.length_append] at hl
    exact absurd hl.1 (by decide)
  have d2 : ("Assimp error: " ++ env.error_string) ≠ "" := by
    intro hemp
    have hl := congrArg String.length hemp
    simp [String.length_append] at hl
    exact absurd hl.1 (by decide)
  by_cases hc1 : (!env.exists_file p || !env.is_regular_file p) = true
  · simp [SceneImporter.load, SceneImporterState.clear, hc1]
    exact d1
  · cases hr : env.read_file p with
    | none =>
        simp [SceneImporter.load, SceneImporterState.clear, hc1, hr]
        exact d2
    | some sc =>
        by_cases hflag : (sc.mFlagsIncomplete || sc.mRootNode.isNone) = true
        · simp [SceneImporter.load, SceneImporterState.clear, hc1, hr, hflag]
          exact d2
        · simp [SceneImporter.load, hc1, hr, hflag] at h

theorem load_success (env : Env) (st : SceneImporterState) (p : String)
    (h : (SceneImporter.load env st p).1 = true) :
    ∃ sc, env.read_file p = some sc
      ∧ (SceneImporter.load env st p).2.scene_data.meshes = sc.mMeshes.map process_mesh
      ∧ (SceneImporter.load env st p).2.scene_data.materials =
          sc.mMaterials.map (process_material (env.parent_path p))
      ∧ (SceneImporter.load env st p).2.scene_data.instances =
          process_nodes sc.mMeshes sc.mRootNode
      ∧ (SceneImporter.load env st p).2.is_loaded = true := by
  by_cases hc1 : (!env.exists_file p || !env.is_regular_file p) = true
  · simp [SceneImporter.load, hc1] at h
  · cases hr : env.read_file p with
    | none => simp [SceneImporter.load, hc1, hr] at h
    | some sc =>
        by_cases hflag : (sc.mFlagsIncomplete || sc.mRootNode.isNone) = true
        · simp [SceneImporter.load, hc1, hr, hflag] at h
        · refine ⟨sc, rfl, ?_⟩
          simp [SceneImporter.load, SceneImporterState.clear, hc1, hr, hflag]

theorem fill3_length (src : List AiVec3) (n : Nat) : (fill3 src n).length = 3 * n := by
  induction n with
  | zero => rfl
  | succ n ih =>
      simp [fill3, ih]
      omega

theorem fill2_length (src : List AiVec3) (n : Nat) : (fill2 src n).length = 2 * n := by
  induction n with
  | zero => rfl
  | succ n ih =>
      simp [fill2, ih]
      omega

theorem indices_foldl_join (faces : List AiFace) :
    ∀ acc : List Nat,
      faces.foldl
        (fun acc face => if face.mIndices.length = 3 then acc ++ face.mIndices else acc) acc =
      acc ++ ((faces.filter (fun f => f.mIndices.length == 3)).map AiFace.mIndices).flatten := by
  induction faces with
  | nil =>
      intro acc
      simp
  | cons f fs ih =>
      intro acc
      by_cases hf : f.mIndices.length = 3
      · simp [hf, ih]
      · simp [hf, ih]

theorem uvs_length (m : AiMesh) :
    (process_mesh (some m)).uvs.length = 2 * m.mVertices.length := by
  by_cases h : m.HasTextureCoords0 = true
  · simp [process_mesh, h, fill2_length]
  · simp [process_mesh, h, List.length_replicate]
    omega

/-- C2: every node record stores its world transform transposed into
column-major order — slot `c*4+r` of the stored array equals entry `[r][c]`
of `parent_world × node_local` — the root is traversed with the identity as
parent (so its world transform is its own local transform), and each child
is enqueued with `parent_world × child_local` as its parent transform. -/
theorem c2_world_transform_transposed :
    (∀ (meshes : List (Option AiMesh)) (n : AiNode) (pt : Mat4) (r c : Fin 4),
        (process_node meshes n pt).world_transform.get? (c.val * 4 + r.val) =
          some ((matMul pt n.mTransformation).get r c))
    ∧ (∀ M : Mat4, matMul Mat4.identity M = M)
    ∧ (∀ (meshes : List (Option AiMesh)) (root : AiNode),
        process_nodes meshes (some root) = process_nodes_go meshes [(root, Mat4.identity)] [])
    ∧ (∀ (meshes : List (Option AiMesh)) (root : AiNode),
        (process_nodes meshes (some root)).head? =
          some (process_node meshes root Mat4.identity))
    ∧ (∀ (meshes : List (Option AiMesh)) (n : AiNode) (pt : Mat4)
        (rest : List (AiNode × Mat4)) (acc : List InstanceData),
        process_nodes_go meshes ((n, pt) :: rest) acc =
          process_nodes_go meshes
            (rest ++ n.mChildren.map (fun ch => (ch, matMul pt n.mTransformation)))
            (acc ++ [process_node meshes n pt])) := by
  refine ⟨?_, matMul_identity_left, fun _ _ => rfl, ?_, process_nodes_go_cons⟩
  · intro meshes n pt r c
    fin_cases r <;> fin_cases c <;> rfl
  · intro meshes root
    rw [show process_nodes meshes (some root) =
          process_nodes_go meshes [(root, Mat4.identity)] [] from rfl,
        process_nodes_go_eq, bfsPairs_cons]
    simp

/-- C4: for every successful load the stored instances are exactly the
output of the BFS traversal of the source root; that traversal produces
exactly the records of the breadth-first discovery listing of the node tree
(root first), so there is exactly one `InstanceData` per node — `totalNodes`
many — and a node with zero meshes yields a record with empty `mesh_indices`
and `material_indices`. -/
theorem c4_instances_bfs_order :
    (∀ (env : Env) (st : SceneImporterState) (p : String),
      (SceneImporter.load env st p).1 = true →
        ∃ sc, env.read_file p = some sc
          ∧ (SceneImporter.load env st p).2.scene_data.instances =
              process_nodes sc.mMeshes sc.mRootNode)
    ∧ ∀ (meshes : List (Option AiMesh)) (root : AiNode),
      process_nodes meshes (some root) =
        (bfsPairs [(root, Mat4.identity)]).map (fun p => process_node meshes p.1 p.2)
      ∧ (bfsPairs [(root, Mat4.identity)]).map Prod.fst = bfsNodes [root]
      ∧ (process_nodes meshes (some root)).length = root.totalNodes
      ∧ (bfsNodes [root]).head? = some root
      ∧ (∀ (n : AiNode) (pt : Mat4),
          (process_node meshes n pt).mesh_indices = n.mMeshes
          ∧ (process_node meshes n pt).material_indices =
              n.mMeshes.map (material_index_of meshes)) := by
  constructor
  · intro env st p h
    obtain ⟨sc, hsc, _, _, hinst, _⟩ := load_success env st p h
    exact ⟨sc, hsc, hinst⟩
  intro meshes root
  have h1 : process_nodes meshes (some root) =
      (bfsPairs [(root, Mat4.identity)]).map (fun p => process_node meshes p.1 p.2) := by
    rw [show process_nodes meshes (some root) =
          process_nodes_go meshes [(root, Mat4.identity)] [] from rfl,
        process_nodes_go_eq]
    simp
  have h2 : (bfsPairs [(root, Mat4.identity)]).map Prod.fst = bfsNodes [root] := by
    rw [bfsPairs_fst]
    rfl
  refine ⟨h1, h2, ?_, ?_, fun n pt => ⟨rfl, rfl⟩⟩
  · calc (process_nodes meshes (some root)).length
        = ((bfsPairs [(root, Mat4.identity)]).map Prod.fst).length := by
          rw [h1]
          simp
      _ = (bfsNodes [root]).length := by rw [h2]
      _ = root.totalNodes := by
          rw [bfsNodes_length]
          simp
  · rw [bfsNodes_cons]
    rfl

/-- C4 witness: the load-link part evaluated on the concrete successful
load, and the per-node parts at a concrete node. -/
theorem c4_instances_bfs_order_witness :
    (∃ sc, exEnv.read_file "scene.gltf" = some sc
      ∧ (SceneImporter.load exEnv SceneImporterState.init "scene.gltf").2.scene_data.instances =
          process_nodes sc.mMeshes sc.mRootNode)
    ∧ (process_nodes [some exMesh1, some exMesh2]
        (some (AiNode.mk "root" Mat4.identity [0] []))).length =
        (AiNode.mk "root" Mat4.identity [0] []).totalNodes :=
  ⟨c4_instances_bfs_order.1 exEnv SceneImporterState.init "scene.gltf" rfl,
   (c4_instances_bfs_order.2 [some exMesh1, some exMesh2]
      (AiNode.mk "root" Mat4.identity [0] [])).2.2.1⟩

/-- C1 counterexample: `exMesh1` has no first UV channel
(`mTextureCoords0 = none`), yet its converted `uvs` sequence is the non-empty
zero-filled `[0, 0]` and `truvixx_mesh_get_info` reports `has_uvs = 1` for it
in a successfully loaded scene — contradicting "if the source lacks a first
UV channel, the converted uvs sequence is empty and mesh_get_info reports
has_uvs = false". -/
theorem c1_zero_filled_uvs_counterexample :
    exMesh1.mTextureCoords0 = none
    ∧ (process_mesh (some exMesh1)).uvs = [0, 0]
    ∧ (process_mesh (some exMesh1)).uvs ≠ []
    ∧ (truvixx_mesh_get_info exHandle 0 (some exInfo0)).2 =
        some { vertex_count := 1, index_count := 3, has_normals := 1, has_tangents := 0,
               has_uvs := 1, pad0 := 0 } := by
  refine ⟨rfl, by decide, by decide, by decide⟩

/-- C1 (amended): the converted `uvs` sequence always has exactly
`vertex_count` pairs — zero-filled when the source lacks a first UV
channel — it is empty exactly when the mesh has zero vertices, and
`mesh_get_info` reports `has_uvs` (like the other `has_*` flags) from the
emptiness of the stored sequence, hence `has_uvs = 1` iff `vertex_count > 0`
rather than iff the source had a UV channel. -/
theorem c1_uvs_amended :
    (∀ m : AiMesh, (process_mesh (some m)).uvs.length = 2 * m.mVertices.length)
    ∧ (∀ m : AiMesh, m.mTextureCoords0 = none →
        (process_mesh (some m)).uvs = List.replicate (m.mVertices.length * 2) 0)
    ∧ (∀ m : AiMesh, ((process_mesh (some m)).uvs = [] ↔ m.mVertices.length = 0))
    ∧ (∀ (scene : TruvixxScene) (index : Nat) (outv : TruvixxMeshInfo) (data : SceneData),
        get_scene_data scene = some data → index < data.meshes.length →
          (truvixx_mesh_get_info scene index (some outv)).2 =
            some { vertex_count := (data.meshes.getD index {}).vertex_count
                   index_count := (data.meshes.getD index {}).index_count
                   has_normals := if (data.meshes.getD index {}).normals.isEmpty then 0 else 1
                   has_tangents := if (data.meshes.getD index {}).tangents.isEmpty then 0 else 1
                   has_uvs := if (data.meshes.getD index {}).uvs.isEmpty then 0 else 1
                   pad0 := 0 }) := by
  refine ⟨uvs_length, ?_, ?_, ?_⟩
  · intro m hm
    simp [process_mesh, AiMesh.HasTextureCoords0, hm]
  · intro m
    rw [← List.length_eq_zero, uvs_length]
    omega
  · intro scene index outv data hd hlt
    simp [truvixx_mesh_get_info, hd, Nat.not_le.mpr hlt]

/-- C1 witness: the amended statement evaluated on the concrete scene. -/
theorem c1_uvs_amended_witness :
    (process_mesh (some exMesh1)).uvs.length = 2 * exMesh1.mVertices.length
    ∧ (process_mesh (some exMesh1)).uvs = List.replicate (exMesh1.mVertices.length * 2) 0
    ∧ ((process_mesh (some exMesh2)).uvs = [] ↔ exMesh2.mVertices.length = 0)
    ∧ (truvixx_mesh_get_info exHandle 0 (some exInfo0)).2 =
        some { vertex_count := (exData.meshes.getD 0 {}).vertex_count
               index_count := (exData.meshes.getD 0 {}).index_count
               has_normals := if (exData.meshes.getD 0 {}).normals.isEmpty then 0 else 1
               has_tangents := if (exData.meshes.getD 0 {}).tangents.isEmpty then 0 else 1
               has_uvs := if (exData.meshes.getD 0 {}).uvs.isEmpty then 0 else 1
               pad0 := 0 } :=
  ⟨c1_uvs_amended.1 exMesh1,
   c1_uvs_amended.2.1 exMesh1 rfl,
   c1_uvs_amended.2.2.1 exMesh2,
   c1_uvs_amended.2.2.2 exHandle 0 exInfo0 exData rfl (by decide)⟩

/-- C3 counterexample: for the null path argument `truvixx_scene_load`
returns a null handle, so it is not true that it returns a valid non-null
handle for every path argument. -/
theorem c3_null_path_counterexample :
    truvixx_scene_load exEnv none = none ∧ truvixx_scene_load exEnvMissing none = none :=
  ⟨rfl, rfl⟩

/-- C3 (amended): for every NON-NULL path argument `truvixx_scene_load`
returns a non-null handle, even when the underlying load fails; the failure
is observable only through zero counts and the error-message accessor (which
then returns the recorded non-empty message), never through a null handle. -/
theorem c3_nonnull_handle_amended :
    (∀ (env : Env) (p : String), (truvixx_scene_load env (some p)).isSome = true)
    ∧ (∀ (env : Env) (p : String),
        (SceneImporter.load env SceneImporterState.init p).1 = false →
          truvixx_scene_mesh_count (truvixx_scene_load env (some p)) = 0
          ∧ truvixx_scene_material_count (truvixx_scene_load env (some p)) = 0
          ∧ truvixx_scene_instance_count (truvixx_scene_load env (some p)) = 0
          ∧ truvixx_scene_error (truvixx_scene_load env (some p)) =
              (SceneImporter.load env SceneImporterState.init p).2.error_msg
          ∧ (SceneImporter.load env SceneImporterState.init p).2.error_msg ≠ "") := by
  refine ⟨fun env p => rfl, ?_⟩
  intro env p h
  have hf := load_fail env SceneImporterState.init p h
  have hload : get_scene_data (truvixx_scene_load env (some p)) = none := by
    simp [truvixx_scene_load, get_scene_data, hf.2.2.2.1]
  refine ⟨?_, ?_, ?_, rfl, hf.2.2.2.2⟩
  · simp [truvixx_scene_mesh_count, hload]
  · simp [truvixx_scene_material_count, hload]
  · simp [truvixx_scene_instance_count, hload]

/-- C3 witness: the amended statement evaluated on a failing concrete load. -/
theorem c3_nonnull_handle_amended_witness :
    (truvixx_scene_load exEnvMissing (some "nope.gltf")).isSome = true
    ∧ ((SceneImporter.load exEnvMissing SceneImporterState.init "nope.gltf").1 = false
    ∧ truvixx_scene_mesh_count (truvixx_scene_load exEnvMissing (some "nope.gltf")) = 0
    ∧ truvixx_scene_error (truvixx_scene_load exEnvMissing (some "nope.gltf")) =
        (SceneImporter.load exEnvMissing SceneImporterState.init "nope.gltf").2.error_msg) :=
  ⟨c3_nonnull_handle_amended.1 exEnvMissing "nope.gltf",
   rfl,
   (c3_nonnull_handle_amended.2 exEnvMissing "nope.gltf" rfl).1,
   (c3_nonnull_handle_amended.2 exEnvMissing "nope.gltf" rfl).2.2.2.1⟩

theorem process_nodes_leaf (meshes : List (Option AiMesh)) (nm : String) (tf : Mat4)
    (ms : List Nat) :
    process_nodes meshes (some (AiNode.mk nm tf ms [])) =
      [process_node meshes (AiNode.mk nm tf ms []) Mat4.identity] := by
  show process_nodes_go meshes [(AiNode.mk nm tf ms [], Mat4.identity)] [] = _
  rw [process_nodes_go_cons]
  simp only [AiNode.mChildren, List.map_nil, List.append_nil, List.nil_append]
  exact process_nodes_go_nil meshes _

theorem exHandle_instance_count : truvixx_scene_instance_count exHandle = 1 := by
  have h : truvixx_scene_instance_count exHandle =
      (process_nodes exScene.mMeshes exScene.mRootNode).length := rfl
  rw [h, show exScene.mRootNode = some (AiNode.mk "root" Mat4.identity [0] []) from rfl,
     process_nodes_leaf]
  rfl

/-- C5: `truvixx_material_get` and `truvixx_instance_get` return failure (0)
and return the caller's out struct entirely unmodified whenever the index is
at or beyond the corresponding count — which covers null and unloaded
handles, whose counts are 0 — and likewise whenever `get_scene_data` rejects
the handle. -/
theorem c5_out_of_range_no_write :
    ∀ (scene : TruvixxScene) (index : Nat) (outm : TruvixxMaterial) (outi : TruvixxInstance),
      (truvixx_scene_material_count scene ≤ index →
        truvixx_material_get scene index (some outm) = (0, some outm))
      ∧ (truvixx_scene_instance_count scene ≤ index →
        truvixx_instance_get scene index (some outi) = (0, some outi))
      ∧ (get_scene_data scene = none →
          truvixx_material_get scene index (some outm) = (0, some outm)
          ∧ truvixx_instance_get scene index (some outi) = (0, some outi)) := by
  intro scene index outm outi
  cases hd : get_scene_data scene with
  | none =>
      refine ⟨fun _ => ?_, fun _ => ?_, fun _ => ⟨?_, ?_⟩⟩ <;>
        simp [truvixx_material_get, truvixx_instance_get, hd]
  | some data =>
      refine ⟨fun hle => ?_, fun hle => ?_, fun hnone => ?_⟩
      · have hlen : data.materials.length ≤ index := by
          simpa [truvixx_scene_material_count, hd] using hle
        simp [truvixx_material_get, hd, hlen]
      · have hlen : data.instances.length ≤ index := by
          simpa [truvixx_scene_instance_count, hd] using hle
        simp [truvixx_instance_get, hd, hlen]
      · exact absurd hnone (by simp)

/-- C5 witness: out-of-range and null-handle accesses on the concrete scene
fail without touching the out structs. -/
theorem c5_out_of_range_no_write_witness :
    truvixx_scene_material_count exHandle ≤ 5
    ∧ truvixx_material_get exHandle 5 (some exMat0) = (0, some exMat0)
    ∧ truvixx_instance_get exHandle 5 (some exInst0) = (0, some exInst0)
    ∧ truvixx_material_get none 0 (some exMat0) = (0, some exMat0)
    ∧ truvixx_instance_get none 0 (some exInst0) = (0, some exInst0) :=
  ⟨by decide,
   (c5_out_of_range_no_write exHandle 5 exMat0 exInst0).1 (by decide),
   (c5_out_of_range_no_write exHandle 5 exMat0 exInst0).2.1
     (by rw [exHandle_instance_count]; decide),
   ((c5_out_of_range_no_write none 0 exMat0 exInst0).2.2 rfl).1,
   ((c5_out_of_range_no_write none 0 exMat0 exInst0).2.2 rfl).2⟩

/-- C6: `safe_strcpy` into a 256-byte buffer copies exactly the first
`min(length, 255)` source bytes, writes the null terminator at position
`min(length, 255)`, leaves every byte from `min(length, 255)+1` on unchanged
and never grows the buffer beyond 256 bytes; and on a successful
`truvixx_material_get` the name field is exactly such a copy of the
material's name. -/
theorem c6_strcpy_truncation :
    (∀ (dest src : List Nat), dest.length = 256 →
      (safe_strcpy dest 256 src).length = 256
      ∧ (safe_strcpy dest 256 src).take (min src.length 255) = src.take (min src.length 255)
      ∧ (safe_strcpy dest 256 src).get? (min src.length 255) = some 0
      ∧ (safe_strcpy dest 256 src).drop (min src.length 255 + 1) =
          dest.drop (min src.length 255 + 1))
    ∧ (∀ (scene : TruvixxScene) (index : Nat) (outv r : TruvixxMaterial),
        truvixx_material_get scene index (some outv) = (1, some r) →
          r.name = safe_strcpy outv.name 256
            (strBytes ((((get_scene_data scene).getD {}).materials.getD index {}).name))) := by
  constructor
  · intro dest src hd
    have h0 : (256 : Nat) ≠ 0 := by decide
    have hm : min src.length 255 ≤ src.length := Nat.min_le_left _ _
    have hlen : (src.take (min src.length 255)).length = min src.length 255 := by
      simp [List.length_take]
    unfold safe_strcpy
    simp only [h0, if_false]
    refine ⟨?_, ?_, ?_, ?_⟩
    · simp [List.length_append, List.length_take, List.length_drop, hd]
      omega
    · rw [List.append_assoc, List.take_append_of_le_length (le_of_eq hlen.symm)]
      simp [List.take_take]
    · rw [List.append_assoc, List.get?_append_right (le_of_eq hlen)]
      simp [hlen]
    · have h1 : ((src.take (min src.length 255)) ++ [0]).length = min src.length 255 + 1 := by
        simp [hlen]
      rw [List.drop_left' h1]
  · intro scene index outv r h
    cases hd : get_scene_data scene with
    | none => simp [truvixx_material_get, hd] at h
    | some data =>
        by_cases hle : data.materials.length ≤ index
        · simp [truvixx_material_get, hd, hle] at h
        · simp only [truvixx_material_get, hd] at h
          rw [if_neg hle] at h
          have h2 := congrArg Prod.snd h
          simp only [Option.some.injEq] at h2
          rw [← h2]
          simp [hd]

/-- C6 witness: the truncation properties at a concrete 256-byte buffer and
an over-long source, and the name-copy shape on the concrete loaded scene. -/
theorem c6_strcpy_truncation_witness :
    (List.replicate 256 7 : List Nat).length = 256
    ∧ (safe_strcpy (List.replicate 256 7) 256 (List.replicate 300 4)).length = 256
    ∧ (safe_strcpy (List.replicate 256 7) 256 (List.replicate 300 4)).get?
        (min (List.replicate 300 (4 : Nat)).length 255) = some 0
    ∧ ((truvixx_material_get exHandle 0 (some exMat0)).2.getD exMat0).name =
        safe_strcpy exMat0.name 256
          (strBytes ((((get_scene_data exHandle).getD {}).materials.getD 0 {}).name)) :=
  ⟨by simp,
   (c6_strcpy_truncation.1 (List.replicate 256 7) (List.replicate 300 4) (by simp)).1,
   (c6_strcpy_truncation.1 (List.replicate 256 7) (List.replicate 300 4) (by simp)).2.2.1,
   c6_strcpy_truncation.2 exHandle 0 exMat0
     ((truvixx_material_get exHandle 0 (some exMat0)).2.getD exMat0) rfl⟩

/-- C7: the converted index sequence of every mesh has length a multiple of
3 — it is exactly the concatenation of the index triples of the source faces
with exactly 3 indices, any other face being dropped — and hence for every
successful load the sum of `index_count` over all meshes is a multiple of 3. -/
theorem c7_indices_multiple_of_three :
    (∀ om : Option AiMesh, (process_mesh om).indices.length % 3 = 0)
    ∧ (∀ m : AiMesh, (process_mesh (some m)).indices =
        ((m.mFaces.filter (fun f => f.mIndices.length == 3)).map AiFace.mIndices).flatten)
    ∧ (∀ (env : Env) (st : SceneImporterState) (p : String),
        (SceneImporter.load env st p).1 = true →
          (((SceneImporter.load env st p).2.scene_data.meshes.map MeshData.index_count).sum) % 3
            = 0) := by
  have hjoin : ∀ m : AiMesh, (process_mesh (some m)).indices =
      ((m.mFaces.filter (fun f => f.mIndices.length == 3)).map AiFace.mIndices).flatten := by
    intro m
    have h := indices_foldl_join m.mFaces []
    simpa [process_mesh] using h
  have hmod : ∀ om : Option AiMesh, (process_mesh om).indices.length % 3 = 0 := by
    intro om
    cases om with
    | none => rfl
    | some m =>
        rw [hjoin m]
        induction m.mFaces with
        | nil => rfl
        | cons f fs ih =>
            by_cases hf : f.mIndices.length = 3
            · have hb : (f.mIndices.length == 3) = true := by
                simpa using hf
              simp only [List.filter_cons, hb, if_true]
              simp only [List.map_cons, List.flatten_cons, List.length_append, hf]
              omega
            · have hb : (f.mIndices.length == 3) = false := by
                simpa using hf
              simp only [List.filter_cons, hb, if_false]
              exact ih
  refine ⟨hmod, hjoin, ?_⟩
  intro env st p h
  obtain ⟨sc, _, hm, _⟩ := load_success env st p h
  rw [hm]
  induction sc.mMeshes with
  | nil => rfl
  | cons om oms ih =>
      simp only [List.map_cons, List.sum_cons]
      have h1 := hmod om
      simp only [MeshData.index_count] at ih ⊢
      omega

/-- C7 witness: the sum-of-index-counts property evaluated on the concrete
successful load. -/
theorem c7_indices_multiple_of_three_witness :
    (SceneImporter.load exEnv SceneImporterState.init "scene.gltf").1 = true
    ∧ (((SceneImporter.load exEnv SceneImporterState.init "scene.gltf").2.scene_data.meshes.map
        MeshData.index_count).sum) % 3 = 0 :=
  ⟨rfl, c7_indices_multiple_of_three.2.2 exEnv SceneImporterState.init "scene.gltf" rfl⟩

/-- C8: `SceneImporter::load` first fully resets all previously held state —
its result depends on the prior state only through the never-cleared `dir_`
field, so two importers with equal `dir_` load identically — and whenever
`load` returns failure the importer holds empty scene data (all three counts
are 0), `is_loaded()` is false, and a non-empty error message is recorded. -/
theorem c8_load_clears_state :
    (∀ (env : Env) (p : String) (st1 st2 : SceneImporterState), st1.dir = st2.dir →
        SceneImporter.load env st1 p = SceneImporter.load env st2 p)
    ∧ (∀ (env : Env) (st : SceneImporterState) (p : String),
        (SceneImporter.load env st p).1 = false →
          (SceneImporter.load env st p).2.scene_data.meshes = []
          ∧ (SceneImporter.load env st p).2.scene_data.materials = []
          ∧ (SceneImporter.load env st p).2.scene_data.instances = []
          ∧ (SceneImporter.load env st p).2.is_loaded = false
          ∧ (SceneImporter.load env st p).2.error_msg ≠ "") := by
  refine ⟨?_, load_fail⟩
  intro env p st1 st2 h
  have hclear : st1.clear = st2.clear := by
    cases st1
    cases st2
    simp only [SceneImporterState.clear]
    simp_all
  simp only [SceneImporter.load, hclear]

/-- C8 witness: a dirty importer state and a fresh one load identically, and
a failing load leaves cleared state with an error recorded. -/
theorem c8_load_clears_state_witness :
    SceneImporter.load exEnvMissing
        { SceneImporterState.init with error_msg := "stale", is_loaded := true } "x.gltf" =
      SceneImporter.load exEnvMissing SceneImporterState.init "x.gltf"
    ∧ (SceneImporter.load exEnvMissing SceneImporterState.init "x.gltf").1 = false
    ∧ (SceneImporter.load exEnvMissing SceneImporterState.init "x.gltf").2.is_loaded = false
    ∧ (SceneImporter.load exEnvMissing SceneImporterState.init "x.gltf").2.error_msg ≠ "" :=
  ⟨c8_load_clears_state.1 exEnvMissing "x.gltf" _ _ rfl,
   rfl,
   (c8_load_clears_state.2 exEnvMissing SceneImporterState.init "x.gltf" rfl).2.2.2.1,
   (c8_load_clears_state.2 exEnvMissing SceneImporterState.init "x.gltf" rfl).2.2.2.2⟩

/-- C9: each individual attribute fill function (normals, tangents, uvs)
returns failure and leaves the caller's buffer untouched when the handle is
rejected (null or unloaded), the index is out of range, or the requested
attribute sequence is empty; otherwise it returns success and copies the
full attribute sequence into the front of the caller's buffer. -/
theorem c9_fill_absent_attribute_fails :
    ∀ (scene : TruvixxScene) (index : Nat) (buf : List F),
      (get_scene_data scene = none →
          truvixx_mesh_fill_normals scene index (some buf) = (0, some buf)
          ∧ truvixx_mesh_fill_tangents scene index (some buf) = (0, some buf)
          ∧ truvixx_mesh_fill_uvs scene index (some buf) = (0, some buf))
      ∧ (∀ data : SceneData, get_scene_data scene = some data →
          (data.meshes.length ≤ index →
              truvixx_mesh_fill_normals scene index (some buf) = (0, some buf)
              ∧ truvixx_mesh_fill_tangents scene index (some buf) = (0, some buf)
              ∧ truvixx_mesh_fill_uvs scene index (some buf) = (0, some buf))
          ∧ (index < data.meshes.length →
              ((data.meshes.getD index {}).normals.isEmpty = true →
                  truvixx_mesh_fill_normals scene index (some buf) = (0, some buf))
              ∧ ((data.meshes.getD index {}).normals.isEmpty = false →
                  truvixx_mesh_fill_normals scene index (some buf) =
                    (1, some (memcpyL buf (data.meshes.getD index {}).normals)))
              ∧ ((data.meshes.getD index {}).tangents.isEmpty = true →
                  truvixx_mesh_fill_tangents scene index (some buf) = (0, some buf))
              ∧ ((data.meshes.getD index {}).tangents.isEmpty = false →
                  truvixx_mesh_fill_tangents scene index (some buf) =
                    (1, some (memcpyL buf (data.meshes.getD index {}).tangents)))
              ∧ ((data.meshes.getD index {}).uvs.isEmpty = true →
                  truvixx_mesh_fill_uvs scene index (some buf) = (0, some buf))
              ∧ ((data.meshes.getD index {}).uvs.isEmpty = false →
                  truvixx_mesh_fill_uvs scene index (some buf) =
                    (1, some (memcpyL buf (data.meshes.getD index {}).uvs)))))
      ∧ (∀ l : List F, (memcpyL buf l).take l.length = l) := by
  intro scene index buf
  refine ⟨?_, ?_, ?_⟩
  · intro hd
    refine ⟨?_, ?_, ?_⟩ <;>
      simp [truvixx_mesh_fill_normals, truvixx_mesh_fill_tangents, truvixx_mesh_fill_uvs, hd]
  · intro data hd
    constructor
    · intro hle
      refine ⟨?_, ?_, ?_⟩ <;>
        simp [truvixx_mesh_fill_normals, truvixx_mesh_fill_tangents, truvixx_mesh_fill_uvs,
          hd, hle]
    · intro hlt
      have hne : ¬ data.meshes.length ≤ index := Nat.not_le.mpr hlt
      refine ⟨?_, ?_, ?_, ?_, ?_, ?_⟩ <;> intro hemp <;>
        simp_all [truvixx_mesh_fill_normals, truvixx_mesh_fill_tangents,
          truvixx_mesh_fill_uvs, hd, hne]
  · intro l
    simpa [memcpyL] using List.take_left l (buf.drop l.length)

/-- C9 witness: on the concrete loaded scene, filling present normals
succeeds with the full copy and filling the absent tangents fails without
touching the buffer. -/
theorem c9_fill_absent_attribute_fails_witness :
    get_scene_data exHandle = some exData
    ∧ 0 < exData.meshes.length
    ∧ truvixx_mesh_fill_normals exHandle 0 (some [7, 7, 7]) =
        (1, some (memcpyL [7, 7, 7] (exData.meshes.getD 0 {}).normals))
    ∧ truvixx_mesh_fill_tangents exHandle 0 (some [7, 7, 7]) = (0, some [7, 7, 7])
    ∧ (memcpyL [7, 7, 7] ([] : List F)).take (0 : Nat) = ([] : List F) :=
  ⟨rfl, by decide,
   ((c9_fill_absent_attribute_fails exHandle 0 [7, 7, 7]).2.1 exData rfl).2
      (by decide) |>.2.1 (by decide),
   ((c9_fill_absent_attribute_fails exHandle 0 [7, 7, 7]).2.1 exData rfl).2
      (by decide) |>.2.2.1 (by decide),
   (c9_fill_absent_attribute_fails exHandle 0 [7, 7, 7]).2.2 []⟩

/-- C10: for a valid handle and in-range mesh index the batched
`truvixx_mesh_fill_all` always returns success — also when every output
pointer is null — and an absent (empty) attribute is silently skipped with
its output buffer returned untouched, in contrast with the individual fill
function, which fails on the same absent attribute. -/
theorem c10_fill_all_always_succeeds :
    ∀ (scene : TruvixxScene) (index : Nat) (data : SceneData)
      (op onn ot ou : Option (List F)) (oi : Option (List Nat)) (buf : List F),
      get_scene_data scene = some data → index < data.meshes.length →
        (truvixx_mesh_fill_all scene index op onn ot ou oi).1 = 1
        ∧ truvixx_mesh_fill_all scene index none none none none none =
            (1, (none, none, none, none, none))
        ∧ ((data.meshes.getD index {}).normals.isEmpty = true →
            (truvixx_mesh_fill_all scene index op onn ot ou oi).2.2.1 = onn)
        ∧ ((data.meshes.getD index {}).tangents.isEmpty = true →
            (truvixx_mesh_fill_all scene index op onn ot ou oi).2.2.2.1 = ot)
        ∧ ((data.meshes.getD index {}).uvs.isEmpty = true →
            (truvixx_mesh_fill_all scene index op onn ot ou oi).2.2.2.2.1 = ou)
        ∧ ((data.meshes.getD index {}).uvs.isEmpty = true →
            truvixx_mesh_fill_uvs scene index (some buf) = (0, some buf)) := by
  intro scene index data op onn ot ou oi buf hd hlt
  have hne : ¬ data.meshes.length ≤ index := Nat.not_le.mpr hlt
  have hskip : ∀ (o : Option (List F)) (src : List F), src.isEmpty = true →
      fill_opt o src = o := by
    intro o src hemp
    cases o with
    | none => rfl
    | some b => simp [fill_opt, hemp]
  have hall : ∀ (p n t u : Option (List F)) (i : Option (List Nat)),
      truvixx_mesh_fill_all scene index p n t u i =
        (1, (fill_opt p (data.meshes.getD index {}).positions,
             fill_opt n (data.meshes.getD index {}).normals,
             fill_opt t (data.meshes.getD index {}).tangents,
             fill_opt u (data.meshes.getD index {}).uvs,
             fill_opt i (data.meshes.getD index {}).indices)) := by
    intro p n t u i
    simp [truvixx_mesh_fill_all, hd, hne, List.getD]
  refine ⟨?_, ?_, ?_, ?_, ?_, ?_⟩
  · rw [hall]
  · rw [hall]
    simp [fill_opt]
  · intro hemp
    rw [hall]
    exact hskip _ _ hemp
  · intro hemp
    rw [hall]
    exact hskip _ _ hemp
  · intro hemp
    rw [hall]
    exact hskip _ _ hemp
  · intro hemp
    simp_all [truvixx_mesh_fill_uvs, hd, hne]

/-- C10 witness: on mesh 1 of the concrete scene (no vertices, so every
attribute is empty) `truvixx_mesh_fill_all` succeeds and leaves the supplied
buffers untouched, while `truvixx_mesh_fill_uvs` fails on the same mesh. -/
theorem c10_fill_all_always_succeeds_witness :
    get_scene_data exHandle = some exData
    ∧ 1 < exData.meshes.length
    ∧ (truvixx_mesh_fill_all exHandle 1 (some [7]) (some [7]) (some [7]) (some [7])
        (some [9])).1 = 1
    ∧ (truvixx_mesh_fill_all exHandle 1 (some [7]) (some [7]) (some [7]) (some [7])
        (some [9])).2.2.2.2.1 = some [7]
    ∧ truvixx_mesh_fill_all exHandle 1 none none none none none =
        (1, (none, none, none, none, none))
    ∧ truvixx_mesh_fill_uvs exHandle 1 (some [7]) = (0, some [7]) :=
  ⟨rfl, by decide,
   (c10_fill_all_always_succeeds exHandle 1 exData (some [7]) (some [7]) (some [7]) (some [7])
      (some [9]) [7] rfl (by decide)).1,
   (c10_fill_all_always_succeeds exHandle 1 exData (some [7]) (some [7]) (some [7]) (some [7])
      (some [9]) [7] rfl (by decide)).2.2.2.2.1 (by decide),
   (c10_fill_all_always_succeeds exHandle 1 exData none none none none none [7] rfl
      (by decide)).2.1,
   (c10_fill_all_always_succeeds exHandle 1 exData none none none none none [7] rfl
      (by decide)).2.2.2.2.2 (by decide)⟩
